import Mathlib

/-!
Verification of the LINE-bot webhook service (src/index.js) against its
natural-language specification.

The JavaScript source is shallowly embedded:
- absent / undefined JS fields become `Option`;
- a promise that may reject becomes `Except JsError`;
- the outbound reply client `client.replyMessage` becomes an explicit
  oracle of type `DeliveryCall → Except String Receipt` (error = the
  promise returned by the client rejecting);
- `Promise.all` becomes `promiseAll` (first rejection wins, otherwise the
  list of fulfilled values in order);
- side effects are made observable: `handleEvent` also returns the list of
  delivery calls it performed, and the route handlers return the number of
  `handleEvent` invocations.
-/

namespace Webhook

/-- A JS runtime error (the only one reachable in this code is the
TypeError thrown by reading a property of undefined/null). -/
inductive JsError where
  | typeError (msg : String)
deriving DecidableEq, Repr

/-- Resolution value of `client.replyMessage` (the LINE API receipt). -/
structure Receipt where
  requestId : String
deriving DecidableEq, Repr

/-- The `message` sub-object of an inbound event. Every field can be
absent in the JSON payload; an absent field read in a template literal
renders as the string "undefined" (see `jsStr`). -/
structure Message where
  type : Option String := none
  text : Option String := none
  fileName : Option String := none
  address : Option String := none
  packageId : Option String := none
  stickerId : Option String := none
deriving DecidableEq, Repr

/-- One element of `req.body.events`. `message := none` models a missing
or null `message` field (reading `.type` on it throws in JS). -/
structure InboundEvent where
  type : String
  replyToken : String := ""
  message : Option Message := none
deriving DecidableEq, Repr

/-- JS template-literal coercion of a possibly-undefined string field:
an absent value renders as the literal text "undefined". -/
def jsStr : Option String → String
  | some s => s
  | none => "undefined"

/-- The reply payload `{ type: 'text', text: replyText }` built by
`handleEvent` (src/index.js lines 139-142). -/
structure ReplyMessage where
  type : String
  text : String
deriving DecidableEq, Repr

/-- One invocation of `client.replyMessage(event.replyToken, replyMessage)`
(src/index.js line 147). -/
structure DeliveryCall where
  replyToken : String
  message : ReplyMessage
deriving DecidableEq, Repr

/-- The `switch (messageType)` of src/index.js lines 105-136: composes the
reply text from the message sub-object. The default arm embeds the
unrecognised type via template-literal coercion. -/
def composeReply (message : Message) : String :=
  match message.type with
  | some "text" =>
      "คุณได้ส่งข้อความประเภท: ข้อความ (Text)\nข้อความของคุณคือ: \"" ++ jsStr message.text ++ "\""
  | some "image" => "คุณได้ส่งข้อความประเภท: รูปภาพ (Image)"
  | some "video" => "คุณได้ส่งข้อความประเภท: วิดีโอ (Video)"
  | some "audio" => "คุณได้ส่งข้อความประเภท: ไฟล์เสียง (Audio)"
  | some "file" =>
      "คุณได้ส่งข้อความประเภท: ไฟล์ (File)\nชื่อไฟล์: " ++ jsStr message.fileName
  | some "location" =>
      "คุณได้ส่งข้อความประเภท: ตำแหน่งที่ตั้ง (Location)\nที่อยู่: " ++ jsStr message.address
  | some "sticker" =>
      "คุณได้ส่งข้อความประเภท: สติกเกอร์ (Sticker)\nPackage ID: " ++ jsStr message.packageId
        ++ "\nSticker ID: " ++ jsStr message.stickerId
  | t =>
      "คุณได้ส่งข้อความประเภท: \"" ++ jsStr t ++ "\" ซึ่งยังไม่รองรับการตอบกลับ"

/-- The delivery call `handleEvent` makes for a message event. -/
def replyCallOf (event : InboundEvent) (message : Message) : DeliveryCall :=
  { replyToken := event.replyToken
    message := { type := "text", text := composeReply message } }

/-- The async function `handleEvent` (src/index.js lines 90-156).

Returns the settlement of its promise (`Except.error` = rejection) paired
with the list of delivery calls performed. Reading `event.message.type`
on a missing/null `message` throws a TypeError, which an async function
surfaces as a rejected promise; only the `client.replyMessage` call is
inside the try/catch, whose catch arm resolves with null. -/
def handleEvent (deliver : DeliveryCall → Except String Receipt)
    (event : InboundEvent) : Except JsError (Option Receipt) × List DeliveryCall :=
  if event.type ≠ "message" then
    (Except.ok none, [])
  else
    match event.message with
    | none =>
        (Except.error (JsError.typeError
          "Cannot read properties of undefined (reading type)"), [])
    | some message =>
        let call := replyCallOf event message
        match deliver call with
        | Except.ok receipt => (Except.ok (some receipt), [call])
        | Except.error _ => (Except.ok none, [call])

/-- Settlement of `Promise.all`: rejects with the first rejection,
otherwise fulfils with the list of values in order. -/
def promiseAll {α : Type} : List (Except JsError α) → Except JsError (List α)
  | [] => Except.ok []
  | Except.error e :: _ => Except.error e
  | Except.ok a :: xs =>
      match promiseAll xs with
      | Except.error e => Except.error e
      | Except.ok as => Except.ok (a :: as)

/-- Process configuration read from the environment (src/index.js lines
18-21). `none` models an unset environment variable. -/
structure LineConfig where
  channelSecret : Option String
  channelAccessToken : Option String
deriving DecidableEq, Repr

/-- JS truthiness of a possibly-absent string (undefined and "" are
falsy). -/
def truthy : Option String → Bool
  | none => false
  | some s => s ≠ ""

/-- The `config` sub-object of the health payload (src/index.js lines
61-64): per secret the string "Set" or "Not set", never the value. -/
structure HealthConfigInfo where
  channelSecret : String
  channelAccessToken : String
deriving DecidableEq, Repr

/-- The JSON body of `GET /` (src/index.js lines 58-65). -/
structure HealthBody where
  status : String
  timestamp : String
  config : HealthConfigInfo
deriving DecidableEq, Repr

/-- Builds the health payload exactly as src/index.js lines 58-65 does;
`now` stands for `new Date().toISOString()`. -/
def healthBody (cfg : LineConfig) (now : String) : HealthBody :=
  { status := "LINE Bot is running on AWS Lambda! 🤖"
    timestamp := now
    config :=
      { channelSecret := if truthy cfg.channelSecret then "Set" else "Not set"
        channelAccessToken := if truthy cfg.channelAccessToken then "Set" else "Not set" } }

/-- The JSON (or text) body of an HTTP response of this app. -/
inductive ResponseBody where
  | okText
  | batchSuccess (result : List (Option Receipt))
  | batchFailure
  | unauthorized (message : String) (errMsg : String)
  | health (payload : HealthBody)
  | notFound
deriving DecidableEq, Repr

/-- An HTTP response: status code plus body. -/
structure HttpResponse where
  status : Nat
  body : ResponseBody
deriving DecidableEq, Repr

/-- Observable outcome of serving one request: the response, every
outbound delivery call performed, and how many times `handleEvent` was
invoked. -/
structure ServeResult where
  response : HttpResponse
  deliveryCalls : List DeliveryCall
  dispatchCount : Nat
deriving DecidableEq, Repr

/-- The parsed JSON request body; `events := none` models a body with no
`events` field. -/
structure RequestBody where
  events : Option (List InboundEvent) := none
deriving DecidableEq, Repr

/-- The `POST /default/webhook` handler (src/index.js lines 68-85),
entered only after the middleware passed. Missing or empty `events`
short-circuits to 200 "OK"; otherwise every event is dispatched and the
joint settlement of `Promise.all` picks the 200 success or 200 error
response. Delivery calls of all dispatched events happen regardless of
the join's settlement. -/
def webhookPost (deliver : DeliveryCall → Except String Receipt)
    (body : RequestBody) : ServeResult :=
  match body.events with
  | none => ⟨⟨200, ResponseBody.okText⟩, [], 0⟩
  | some [] => ⟨⟨200, ResponseBody.okText⟩, [], 0⟩
  | some events =>
      let handled := events.map (handleEvent deliver)
      let calls := (handled.map Prod.snd).flatten
      match promiseAll (handled.map Prod.fst) with
      | Except.ok result =>
          ⟨⟨200, ResponseBody.batchSuccess result⟩, calls, events.length⟩
      | Except.error _ =>
          ⟨⟨200, ResponseBody.batchFailure⟩, calls, events.length⟩

/-- Verdict of the LINE signature middleware for a request, viewed as a
black box (src/index.js lines 40-52): either it calls `next()` or it
reports an error with a message. -/
inductive AuthResult where
  | pass
  | fail (errMsg : String)
deriving DecidableEq, Repr

/-- HTTP method of a request (only GET and POST are routed). -/
inductive Method where
  | get
  | post
deriving DecidableEq, Repr

/-- An inbound HTTP request after body parsing. -/
structure Request where
  method : Method
  path : String
  body : RequestBody := {}
deriving DecidableEq, Repr

/-- The whole Express app (src/index.js lines 41-85): the middleware
wrapper runs first on every route and answers 401 with a JSON
message/error body on failure; then `GET /` and `POST /default/webhook`
are matched, anything else falls through to the Express 404 default. -/
def server (cfg : LineConfig) (auth : AuthResult)
    (deliver : DeliveryCall → Except String Receipt)
    (req : Request) (now : String) : ServeResult :=
  match auth with
  | AuthResult.fail errMsg =>
      ⟨⟨401, ResponseBody.unauthorized "Unauthorized" errMsg⟩, [], 0⟩
  | AuthResult.pass =>
      match req.method, req.path with
      | Method.get, "/" => ⟨⟨200, ResponseBody.health (healthBody cfg now)⟩, [], 0⟩
      | Method.post, "/default/webhook" => webhookPost deliver req.body
      | _, _ => ⟨⟨404, ResponseBody.notFound⟩, [], 0⟩

/-- Structural well-formedness the dispatcher needs to avoid throwing:
on a message-type event the `message` sub-object is present. -/
def WellFormed (e : InboundEvent) : Prop :=
  e.type = "message" → e.message.isSome

instance (e : InboundEvent) : Decidable (WellFormed e) := by
  unfold WellFormed; infer_instance

/-- The delivery calls `handleEvent` performs on an event, which depend
only on the event, not on how the client answers. -/
def deliveryCallsOf (e : InboundEvent) : List DeliveryCall :=
  if e.type ≠ "message" then []
  else
    match e.message with
    | none => []
    | some message => [replyCallOf e message]

/-- The value `handleEvent`'s promise fulfils with when it does not
reject: the receipt on successful delivery, null otherwise. -/
def fulfilled (deliver : DeliveryCall → Except String Receipt)
    (e : InboundEvent) : Option Receipt :=
  if e.type ≠ "message" then none
  else
    match e.message with
    | none => none
    | some message =>
        match deliver (replyCallOf e message) with
        | Except.ok receipt => some receipt
        | Except.error _ => none

theorem handleEvent_snd (d : DeliveryCall → Except String Receipt)
    (e : InboundEvent) : (handleEvent d e).2 = deliveryCallsOf e := by
  unfold handleEvent deliveryCallsOf
  split
  · rfl
  · cases e.message with
    | none => rfl
    | some m => simp only; split <;> rfl

theorem handleEvent_fst_of_wellFormed (d : DeliveryCall → Except String Receipt)
    (e : InboundEvent) (h : WellFormed e) :
    (handleEvent d e).1 = Except.ok (fulfilled d e) := by
  unfold handleEvent fulfilled
  split
  · rfl
  · rename_i htype
    simp only [ne_eq, not_not] at htype
    cases hm : e.message with
    | none => exact absurd (Option.isSome_iff_exists.mp (h htype)) (by simp [hm])
    | some m => simp only; split <;> simp_all

theorem handleEvent_congr (d d' : DeliveryCall → Except String Receipt)
    (e : InboundEvent) (h : ∀ c ∈ deliveryCallsOf e, d c = d' c) :
    handleEvent d e = handleEvent d' e := by
  unfold handleEvent
  split
  · rfl
  · rename_i htype
    cases hm : e.message with
    | none => rfl
    | some m =>
      have hc : d (replyCallOf e m) = d' (replyCallOf e m) := by
        apply h
        unfold deliveryCallsOf
        simp [htype, hm]
      simp only [hc]

theorem promiseAll_map_eq {α β : Type} (f : β → Except JsError α) (g : β → α)
    (xs : List β) (h : ∀ x ∈ xs, f x = Except.ok (g x)) :
    promiseAll (xs.map f) = Except.ok (xs.map g) := by
  induction xs with
  | nil => rfl
  | cons x xs ih =>
    have hx : f x = Except.ok (g x) := h x (List.mem_cons_self x xs)
    have hrest := ih (fun y hy => h y (List.mem_cons_of_mem x hy))
    simp [promiseAll, hx, hrest]

theorem promiseAll_ok_length {α : Type} :
    ∀ (xs : List (Except JsError α)) (ys : List α),
      promiseAll xs = Except.ok ys → ys.length = xs.length := by
  intro xs
  induction xs with
  | nil => intro ys h; simp [promiseAll] at h; simp [← h]
  | cons x xs ih =>
    intro ys h
    cases x with
    | error e => simp [promiseAll] at h
    | ok a =>
      cases hrec : promiseAll xs with
      | error e => simp [promiseAll, hrec] at h
      | ok as =>
        simp [promiseAll, hrec] at h
        simp [← h, ih as hrec]

theorem promiseAll_ok_get {α : Type} :
    ∀ (xs : List (Except JsError α)) (ys : List α),
      promiseAll xs = Except.ok ys →
      ∀ (i : Nat) (hx : i < xs.length) (hy : i < ys.length),
        xs.get ⟨i, hx⟩ = Except.ok (ys.get ⟨i, hy⟩) := by
  intro xs
  induction xs with
  | nil => intro ys h i hx hy; simp at hx
  | cons x xs ih =>
    intro ys h i hx hy
    cases x with
    | error e => simp [promiseAll] at h
    | ok a =>
      cases hrec : promiseAll xs with
      | error e => simp [promiseAll, hrec] at h
      | ok as =>
        simp [promiseAll, hrec] at h
        cases i with
        | zero => simp [← h]
        | succ n =>
          have hx' : n < xs.length := by simpa using hx
          have hy' : n < as.length := by
            have := promiseAll_ok_length xs as hrec
            omega
          simpa [← h] using ih as hrec n hx' hy'

theorem fulfilled_congr (d d' : DeliveryCall → Except String Receipt)
    (e : InboundEvent) (h : ∀ c ∈ deliveryCallsOf e, d c = d' c) :
    fulfilled d e = fulfilled d' e := by
  unfold fulfilled
  split
  · rfl
  · rename_i htype
    cases hm : e.message with
    | none => rfl
    | some m =>
      have hc : d (replyCallOf e m) = d' (replyCallOf e m) := by
        apply h
        unfold deliveryCallsOf
        simp [htype, hm]
      simp only [hc]

theorem webhookPost_dispatch (d : DeliveryCall → Except String Receipt)
    (events : List InboundEvent) (hne : events ≠ []) :
    webhookPost d { events := some events } =
      match promiseAll (events.map fun e => (handleEvent d e).1) with
      | Except.ok result =>
          ⟨⟨200, ResponseBody.batchSuccess result⟩,
            (events.map fun e => (handleEvent d e).2).flatten, events.length⟩
      | Except.error _ =>
          ⟨⟨200, ResponseBody.batchFailure⟩,
            (events.map fun e => (handleEvent d e).2).flatten, events.length⟩ := by
  cases events with
  | nil => exact absurd rfl hne
  | cons e es => simp only [webhookPost, List.map_map]; rfl

/-- Sample delivery oracle that always fulfils. -/
def replyOk : DeliveryCall → Except String Receipt :=
  fun _ => Except.ok { requestId := "req-1" }

/-- Sample delivery oracle whose promise always rejects. -/
def replyFail : DeliveryCall → Except String Receipt :=
  fun _ => Except.error "Request failed with status code 400"

/-- Sample well-formed text-message event. -/
def textEvent : InboundEvent :=
  { type := "message", replyToken := "tokA"
    message := some { type := some "text", text := some "hello" } }

/-- Sample non-message event. -/
def followEvent : InboundEvent :=
  { type := "follow", replyToken := "tokB" }

/-- Sample malformed event: message-type with the `message` sub-object
missing. -/
def nullMessageEvent : InboundEvent :=
  { type := "message", replyToken := "tokC", message := none }

/-- Claim C1 (counterexample): on a message-type event with a missing
`message` sub-object, the dispatcher's promise does reject (the TypeError
thrown by `event.message.type` is outside the try/catch), and in a batch
the rejection makes `Promise.all` reject, replacing the whole response
body by the aggregate error one — so the sibling event's outcome is
dropped. This refutes the claim that the returned promise never rejects
and that sibling events are unaffected. -/
theorem handleEvent_rejects_on_missing_message :
    (handleEvent replyOk nullMessageEvent).1 =
      Except.error (JsError.typeError
        "Cannot read properties of undefined (reading type)") ∧
    (webhookPost replyOk { events := some [textEvent, nullMessageEvent] }).response =
      ⟨200, ResponseBody.batchFailure⟩ :=
  ⟨rfl, rfl⟩

/-- Claim C1 (amended): for every InboundEvent whose substructure is
well-formed (the `message` sub-object is present whenever
`type == "message"`), the dispatcher's promise never rejects: it fulfils
with the delivery receipt or with the null outcome, and delivery failures
affect only that event. A missing/null `message` instead rejects the
promise, which is handled only at batch level. -/
theorem handleEvent_resolves_of_wellFormed
    (d : DeliveryCall → Except String Receipt) (e : InboundEvent)
    (h : WellFormed e) : ∃ r, (handleEvent d e).1 = Except.ok r :=
  ⟨fulfilled d e, handleEvent_fst_of_wellFormed d e h⟩

/-- Witness for the amended C1 at a concrete well-formed event. -/
theorem handleEvent_resolves_witness :
    ∃ r, (handleEvent replyOk textEvent).1 = Except.ok r :=
  handleEvent_resolves_of_wellFormed replyOk textEvent (by decide)

theorem length_append_pos_left (s t : String) (h : 0 < s.length) :
    0 < (s ++ t).length := by
  rw [String.length_append]; omega

/-- Claim C2: the reply-composition switch is total and yields a
non-empty reply string for every `message.type` — the seven known kinds,
any unknown string, and even an absent type. -/
theorem composeReply_total_nonempty (message : Message) :
    0 < (composeReply message).length := by
  unfold composeReply
  split <;>
    first
      | decide
      | ((repeat apply length_append_pos_left); decide)

/-- Claim C5: for a text-type message with body `s`, the composed reply
is exactly the fixed template with `s` embedded verbatim. -/
theorem composeReply_text_echo (message : Message) (s : String)
    (ht : message.type = some "text") (hb : message.text = some s) :
    composeReply message =
      "คุณได้ส่งข้อความประเภท: ข้อความ (Text)\nข้อความของคุณคือ: \"" ++ s ++ "\"" := by
  simp [composeReply, ht, hb, jsStr]

/-- Witness for C5 at a body containing embedded quotes and a
backslash. -/
theorem composeReply_text_echo_witness :
    composeReply { type := some "text", text := some "he said \"hi\" \\ bye" } =
      "คุณได้ส่งข้อความประเภท: ข้อความ (Text)\nข้อความของคุณคือ: \"" ++
        "he said \"hi\" \\ bye" ++ "\"" :=
  composeReply_text_echo _ "he said \"hi\" \\ bye" rfl rfl

/-- Claim C6: for every InboundEvent whose `type` is not "message", the
dispatcher immediately resolves with the null (skipped) outcome and makes
zero delivery calls. -/
theorem handleEvent_skips_non_message
    (d : DeliveryCall → Except String Receipt) (event : InboundEvent)
    (h : event.type ≠ "message") :
    handleEvent d event = (Except.ok none, []) := by
  simp [handleEvent, h]

/-- Witness for C6 at a concrete follow event. -/
theorem handleEvent_skips_witness :
    handleEvent replyOk followEvent = (Except.ok none, []) :=
  handleEvent_skips_non_message replyOk followEvent (by decide)

/-- Claim C3: if the reply-delivery call rejects for event `i` of a
well-formed batch, the HTTP response is still the 200 success one whose
result holds every fulfilled outcome, event `i`'s outcome is null, and
every sibling outcome is unaffected: it is the same as under any delivery
oracle that behaves the same on the siblings' own calls (in particular,
one for which event `i`'s delivery would have succeeded). -/
theorem delivery_failure_isolated
    (d d' : DeliveryCall → Except String Receipt)
    (events : List InboundEvent) (i : Nat) (hi : i < events.length)
    (hwf : ∀ e ∈ events, WellFormed e)
    (hfail : ∃ m, (events.get ⟨i, hi⟩).type = "message" ∧
        (events.get ⟨i, hi⟩).message = some m ∧
        ∃ err, d (replyCallOf (events.get ⟨i, hi⟩) m) = Except.error err)
    (hagree : ∀ j (hj : j < events.length), j ≠ i →
        ∀ c ∈ deliveryCallsOf (events.get ⟨j, hj⟩), d c = d' c) :
    webhookPost d { events := some events } =
      ⟨⟨200, ResponseBody.batchSuccess (events.map (fulfilled d))⟩,
        (events.map deliveryCallsOf).flatten, events.length⟩ ∧
    fulfilled d (events.get ⟨i, hi⟩) = none ∧
    (∀ j (hj : j < events.length), j ≠ i →
        fulfilled d (events.get ⟨j, hj⟩) = fulfilled d' (events.get ⟨j, hj⟩)) := by
  have hne : events ≠ [] := by
    intro h
    rw [h] at hi
    simp at hi
  have hok : ∀ e ∈ events, (handleEvent d e).1 = Except.ok (fulfilled d e) :=
    fun e he => handleEvent_fst_of_wellFormed d e (hwf e he)
  have hall : promiseAll (events.map fun e => (handleEvent d e).1) =
      Except.ok (events.map (fulfilled d)) :=
    promiseAll_map_eq _ _ _ hok
  have hcalls : List.map (fun e => (handleEvent d e).2) events =
      List.map deliveryCallsOf events :=
    List.map_congr_left (fun e _ => handleEvent_snd d e)
  refine ⟨?_, ?_, ?_⟩
  · rw [webhookPost_dispatch d events hne, hall]
    simp only [hcalls]
  · obtain ⟨m, hm1, hm2, err, herr⟩ := hfail
    simp only [List.get_eq_getElem] at hm1 hm2 herr
    simp [fulfilled, hm1, hm2, herr]
  · intro j hj hji
    exact fulfilled_congr d d' _ (hagree j hj hji)

/-- Witness for C3: in the batch [textEvent, followEvent] with a client
that rejects every delivery, the text event's outcome is null while the
follow event's outcome agrees with the one under an always-succeeding
client. -/
theorem delivery_failure_isolated_witness :
    fulfilled replyFail textEvent = none ∧
    fulfilled replyFail followEvent = fulfilled replyOk followEvent := by
  have h := delivery_failure_isolated replyFail replyOk [textEvent, followEvent] 0
    (by decide) (by decide)
    ⟨{ type := some "text", text := some "hello" }, rfl, rfl,
      "Request failed with status code 400", rfl⟩
    (by
      intro j hj hji c hc
      have hj2 : j < 2 := by simpa using hj
      interval_cases j
      · exact absurd rfl hji
      · simp [deliveryCallsOf, followEvent] at hc)
  exact ⟨h.2.1, h.2.2 1 (by decide) (by decide)⟩

/-- Claim C4: the webhook route always answers with HTTP status 200
(success range) once the middleware passed, and when the joint settlement
of the dispatched batch rejects (an error escaping the per-event
boundary), the body is the aggregate error one while the status is still
200. -/
theorem webhook_always_http_success
    (d : DeliveryCall → Except String Receipt) (body : RequestBody) :
    (webhookPost d body).response.status = 200 ∧
    (∀ events, body.events = some events →
        (∃ e, promiseAll (events.map fun ev => (handleEvent d ev).1) =
          Except.error e) →
        (webhookPost d body).response.body = ResponseBody.batchFailure) := by
  constructor
  · unfold webhookPost
    match body.events with
    | none => rfl
    | some [] => rfl
    | some (e :: es) => simp only; split <;> rfl
  · intro events hev ⟨err, herr⟩
    have hne : events ≠ [] := by
      intro h
      rw [h] at herr
      simp [promiseAll] at herr
    have : body = { events := some events } := by
      cases body
      simp_all
    rw [this, webhookPost_dispatch d events hne, herr]

/-- Witness for C4: a batch holding a malformed message event makes the
join reject, and the response is still 200 with the aggregate error
body. -/
theorem webhook_always_http_success_witness :
    (webhookPost replyOk { events := some [nullMessageEvent] }).response.status = 200 ∧
    (webhookPost replyOk { events := some [nullMessageEvent] }).response.body =
      ResponseBody.batchFailure :=
  ⟨(webhook_always_http_success replyOk _).1,
    (webhook_always_http_success replyOk _).2 [nullMessageEvent] rfl
      ⟨JsError.typeError "Cannot read properties of undefined (reading type)", rfl⟩⟩

/-- Claim C7: whenever the signature middleware reports an error, the
server answers 401 with the JSON message/error body, performs zero
delivery calls and never invokes the dispatcher. -/
theorem auth_failure_responds_401_no_dispatch
    (cfg : LineConfig) (d : DeliveryCall → Except String Receipt)
    (req : Request) (now errMsg : String) :
    server cfg (AuthResult.fail errMsg) d req now =
      ⟨⟨401, ResponseBody.unauthorized "Unauthorized" errMsg⟩, [], 0⟩ :=
  rfl

/-- Claim C8: an authenticated webhook POST whose body has no `events`
field or an empty `events` array is answered immediately with 200 "OK",
with zero delivery calls and zero dispatcher invocations. -/
theorem empty_events_immediate_ok
    (cfg : LineConfig) (d : DeliveryCall → Except String Receipt)
    (body : RequestBody) (now : String)
    (h : body.events = none ∨ body.events = some []) :
    server cfg AuthResult.pass d
        { method := Method.post, path := "/default/webhook", body := body } now =
      ⟨⟨200, ResponseBody.okText⟩, [], 0⟩ := by
  cases h with
  | inl h => simp [server, webhookPost, h]
  | inr h => simp [server, webhookPost, h]

/-- Witness for C8 at a concrete body with no `events` field. -/
theorem empty_events_immediate_ok_witness :
    server { channelSecret := some "s", channelAccessToken := some "t" }
        AuthResult.pass replyOk
        { method := Method.post, path := "/default/webhook", body := { events := none } }
        "2026-10-11T00:00:00.000Z" =
      ⟨⟨200, ResponseBody.okText⟩, [], 0⟩ :=
  empty_events_immediate_ok _ replyOk _ _ (Or.inl rfl)

/-- Sample configuration with both secrets set. -/
def cfgSample : LineConfig :=
  { channelSecret := some "secret-value", channelAccessToken := some "token-value" }

/-- Claim C9 (counterexample): the signature middleware is installed in
front of every route, so a GET / whose signature verification fails is
answered 401, not 200 — refuting that every GET / receives the health
payload. -/
theorem get_root_unauthenticated_not_200 :
    (server cfgSample (AuthResult.fail "no signature") replyOk
        { method := Method.get, path := "/" }
        "2026-10-11T00:00:00.000Z").response.status = 401 :=
  rfl

/-- Claim C9 (amended): every GET / that passes the signature middleware
is answered 200 with the health payload, whose config section reports
each secret only as the two-valued indicator "Set" or "Not set",
determined solely by whether the secret is configured — so the payload
never depends on (and never contains) the secret values themselves. -/
theorem health_ok_of_authenticated (cfg cfg' : LineConfig)
    (d : DeliveryCall → Except String Receipt) (now : String)
    (h1 : truthy cfg.channelSecret = truthy cfg'.channelSecret)
    (h2 : truthy cfg.channelAccessToken = truthy cfg'.channelAccessToken) :
    server cfg AuthResult.pass d { method := Method.get, path := "/" } now =
      ⟨⟨200, ResponseBody.health (healthBody cfg now)⟩, [], 0⟩ ∧
    ((healthBody cfg now).config.channelSecret = "Set" ∨
      (healthBody cfg now).config.channelSecret = "Not set") ∧
    ((healthBody cfg now).config.channelAccessToken = "Set" ∨
      (healthBody cfg now).config.channelAccessToken = "Not set") ∧
    healthBody cfg now = healthBody cfg' now := by
  refine ⟨rfl, ?_, ?_, ?_⟩
  · unfold healthBody
    split <;> simp
  · unfold healthBody
    split <;> simp
  · unfold healthBody
    rw [h1, h2]

/-- Witness for the amended C9: two configurations with different secret
values but the same configuredness yield the identical health payload. -/
theorem health_ok_witness :
    server cfgSample AuthResult.pass replyOk
        { method := Method.get, path := "/" } "2026-10-11T00:00:00.000Z" =
      ⟨⟨200, ResponseBody.health
          (healthBody cfgSample "2026-10-11T00:00:00.000Z")⟩, [], 0⟩ ∧
    healthBody cfgSample "2026-10-11T00:00:00.000Z" =
      healthBody { channelSecret := some "other", channelAccessToken := some "values" }
        "2026-10-11T00:00:00.000Z" := by
  have h := health_ok_of_authenticated cfgSample
    { channelSecret := some "other", channelAccessToken := some "values" }
    replyOk "2026-10-11T00:00:00.000Z" (by decide) (by decide)
  exact ⟨h.1, h.2.2.2⟩

/-- Claim C10: whenever the joint settlement of the batch fulfils, the
response is the 200 success one whose `result` array has exactly one
entry per input event at the same index (length and order preserved):
the delivery receipt where delivery fulfilled, and null both for a
skipped non-message event and for a message event whose delivery was
rejected — the two cases being represented identically. -/
theorem batch_success_result_shape
    (d : DeliveryCall → Except String Receipt)
    (events : List InboundEvent) (results : List (Option Receipt))
    (hne : events ≠ [])
    (hjoin : promiseAll (events.map fun e => (handleEvent d e).1) =
      Except.ok results) :
    (webhookPost d { events := some events }).response =
      ⟨200, ResponseBody.batchSuccess results⟩ ∧
    results.length = events.length ∧
    (∀ i (hi : i < events.length) (hi2 : i < results.length),
        (handleEvent d (events.get ⟨i, hi⟩)).1 =
          Except.ok (results.get ⟨i, hi2⟩)) ∧
    (∀ e, e.type ≠ "message" → (handleEvent d e).1 = Except.ok none) ∧
    (∀ e m err, e.type = "message" → e.message = some m →
        d (replyCallOf e m) = Except.error err →
        (handleEvent d e).1 = Except.ok none) := by
  refine ⟨?_, ?_, ?_, ?_, ?_⟩
  · rw [webhookPost_dispatch d events hne, hjoin]
  · have := promiseAll_ok_length _ _ hjoin
    simpa using this
  · intro i hi hi2
    have hx : i < (events.map fun e => (handleEvent d e).1).length := by
      simpa using hi
    have := promiseAll_ok_get _ _ hjoin i hx hi2
    simpa [List.get_eq_getElem, List.getElem_map] using this
  · intro e he
    simp [handleEvent, he]
  · intro e m err h1 h2 h3
    simp [handleEvent, h1, h2, h3]

/-- Witness for C10: a skipped follow event and a fulfilled text event
give the result array [null, receipt] in input order. -/
theorem batch_success_result_shape_witness :
    (webhookPost replyOk { events := some [followEvent, textEvent] }).response =
      ⟨200, ResponseBody.batchSuccess [none, some { requestId := "req-1" }]⟩ ∧
    ([none, some { requestId := "req-1" }] : List (Option Receipt)).length =
      [followEvent, textEvent].length := by
  have h := batch_success_result_shape replyOk [followEvent, textEvent]
    [none, some { requestId := "req-1" }] (by decide) rfl
  exact ⟨h.1, h.2.1⟩

end Webhook
